import Mathlib

/-!
Verification of the `crayons` library (a transparent ANSI-colored string
proxy) against its natural-language specification.

The definitions below are a shallow embedding of `src/crayons/crayons.py`
and `src/crayons/_types.py`:

* `FORE_COLORS` / `STYLES` — the ANSI code tables of `_types.py`.
* `ColoredString` — the data carried by `crayons.ColoredString`
  (`s`, `color`, `always_color`, `bold`).
* `coloredString_init` — `ColoredString.__init__` (color validation, the
  `REPLACE_COLORS` lookup, the `CLINT_FORCE_COLOR` override).  Global
  mutable state (`REPLACE_COLORS`, the environment) is passed explicitly
  as `GState`; the render-time state (`stdout.isatty()`, `DISABLE_COLOR`)
  as `RenderState`.
* `color_str` — the `ColoredString.color_str` property, including the
  `_ANSI_ESCAPE_REGEX.sub(format_match, ...)` re-wrapping pass
  (`ansiSub`) modelled with the backtracking semantics of the Python
  pattern specialised to this fixed regex.
* `clean` — `crayons.clean`, i.e. removal of every non-overlapping match
  of `_STRIP` in one left-to-right scan.  Because the three character
  classes of `_STRIP` are pairwise disjoint, maximal munch is exact.
* `replaceColorsFn` / `resetReplaceColorsFn` — `crayons.replace_colors`
  and `crayons.reset_replace_colors`.
* comparison operators, `__add__`/`__radd__`, `__mul__` (iterable case)
  and the delegation surface — from `_types.py` / `crayons.py`.

Python strings are modelled as Lean `String` (code-point lists); Python
exceptions as `Except PyErr`; a Python object on the right-hand side of
an operator is modelled by the behaviour of its `__str__` method
(`StrConv`).
-/

/-- A Python exception, reduced to what the library can raise or meet:
`KeyError` (carrying the offending color name), `TypeError`
(e.g. from `str()` on an object whose `__str__` returns a non-string),
and any other exception raised by a foreign `__str__` (represented here
by `valueError`). -/
inductive PyErr where
  | keyError (name : String)
  | typeError
  | valueError
deriving Repr, DecidableEq

/-- Model of `FORE_COLORS` from `_types.py`: the 17 fore-color keys and their ANSI
escape sequences, in source order. -/
def FORE_COLORS : List (String × String) :=
  [("BLACK", "\x1b[30m"),
   ("RED", "\x1b[31m"),
   ("GREEN", "\x1b[32m"),
   ("YELLOW", "\x1b[33m"),
   ("BLUE", "\x1b[34m"),
   ("MAGENTA", "\x1b[35m"),
   ("CYAN", "\x1b[36m"),
   ("WHITE", "\x1b[37m"),
   ("RESET", "\x1b[39m"),
   ("LIGHTBLACK_EX", "\x1b[90m"),
   ("LIGHTRED_EX", "\x1b[91m"),
   ("LIGHTGREEN_EX", "\x1b[92m"),
   ("LIGHTYELLOW_EX", "\x1b[93m"),
   ("LIGHTBLUE_EX", "\x1b[94m"),
   ("LIGHTMAGENTA_EX", "\x1b[95m"),
   ("LIGHTCYAN_EX", "\x1b[96m"),
   ("LIGHTWHITE_EX", "\x1b[97m")]

/-- Model of `STYLES` from `_types.py`. -/
def STYLES : List (String × String) :=
  [("BRIGHT", "\x1b[1m"),
   ("DIM", "\x1b[2m"),
   ("NORMAL", "\x1b[22m"),
   ("RESET_ALL", "\x1b[0m")]

/-- The data of a `crayons.ColoredString`: the wrapped source text `s`
and the styling attributes, in the order they are assigned in
`ColoredString.__init__`. -/
structure ColoredString where
  s : String
  color : String
  always_color : Bool
  bold : Bool
deriving Repr, DecidableEq

/-- The process-wide state consulted by `ColoredString.__init__`:
the `REPLACE_COLORS` module global and the presence of a truthy
`CLINT_FORCE_COLOR` environment variable. -/
structure GState where
  replace_colors : List (String × String)
  clint_force_color : Bool
deriving Repr, DecidableEq

/-- The state consulted by `ColoredString.color_str`: whether `stdout`
is a terminal and the `DISABLE_COLOR` module global. -/
structure RenderState where
  isatty : Bool
  disable_color : Bool
deriving Repr, DecidableEq

/-- The empty global state: no color replacements, `CLINT_FORCE_COLOR`
unset. -/
def g0 : GState := ⟨[], false⟩

/-- Python `str.upper()` on one character (ASCII fragment; every color
name handled by the library is ASCII). -/
def upperChar (c : Char) : Char :=
  if 0x61 ≤ c.toNat && c.toNat ≤ 0x7a then Char.ofNat (c.toNat - 0x20) else c

/-- Python `str.upper()` (ASCII fragment). -/
def pyUpper (s : String) : String := ⟨s.data.map upperChar⟩

/-- Model of `ColoredString.__init__` from `crayons.py` (for a source that is
already text, so the `__str__`-convertibility check always passes):
validate `color.upper()` against `FORE_COLORS` (raising `KeyError`
naming the requested color otherwise), store the `REPLACE_COLORS`
replacement of the requested color when one exists, and force
`always_color` on when `CLINT_FORCE_COLOR` is set. -/
def coloredString_init (g : GState) (color : String) (s : String)
    (always_color : Bool) (bold : Bool) : Except PyErr ColoredString :=
  if (List.lookup (pyUpper color) FORE_COLORS).isNone then
    Except.error (PyErr.keyError color)
  else
    let storedColor := (List.lookup color g.replace_colors).getD color
    let always := if g.clint_force_color then true else always_color
    Except.ok ⟨s, storedColor, always, bold⟩

/-- Model of `ColoredString._new` from `crayons.py`: re-enter the constructor
with the stored `color`, `always_color` and `bold` and a new source. -/
def cs_new (g : GState) (cs : ColoredString) (s : String) :
    Except PyErr ColoredString :=
  coloredString_init g cs.color s cs.always_color cs.bold

/-- The `red` color function produced by
`_ColorFunctions._make_color_function("RED")`. -/
def red (g : GState) (s : String) (always : Bool := false)
    (bold : Bool := false) : Except PyErr ColoredString :=
  coloredString_init g "RED" s always bold

/-- The `magenta` color function produced by
`_ColorFunctions._make_color_function("MAGENTA")`. -/
def magenta (g : GState) (s : String) (always : Bool := false)
    (bold : Bool := false) : Except PyErr ColoredString :=
  coloredString_init g "MAGENTA" s always bold

/-! ### The `_ANSI_ESCAPE_REGEX` substitution used by `color_str`

The pattern is `(?:\x1b\[[0-9]+m){2}(?:(?!\x1b)+.*)+(?:\x1b\[[0-9]+m){2}`
(VERBOSE).  A match is two complete `ESC [ digits m` sequences, a middle
section that starts with a non-ESC character and stays on one line (`.`
does not cross a newline, and further iterations of the inner group
cannot advance past one), and two more complete escape sequences; the
greedy `.*` makes the middle extend to the *last* position on the line
where two escape sequences follow. -/

/-- The class `[0-9]`. -/
def isDigitByte (c : Char) : Bool := 0x30 ≤ c.toNat && c.toNat ≤ 0x39

/-- Length of a `\x1b\[[0-9]+m` match at the head of the list. -/
def escSeqLen (l : List Char) : Option Nat :=
  match l with
  | c :: rest =>
    if c = '\x1b' then
      match rest with
      | b :: rest2 =>
        if b = '[' then
          let ds := rest2.takeWhile isDigitByte
          if ds.length = 0 then none
          else
            match rest2.drop ds.length with
            | m :: _ => if m = 'm' then some (2 + ds.length + 1) else none
            | [] => none
        else none
      | [] => none
    else none
  | [] => none

/-- Length of `(?:\x1b\[[0-9]+m){2}` at the head of the list. -/
def twoEscLen (l : List Char) : Option Nat :=
  match escSeqLen l with
  | none => none
  | some a =>
    match escSeqLen (l.drop a) with
    | none => none
    | some b => some (a + b)

/-- Largest `p` not exceeding the given bound such that the trailing
double escape sequence matches at offset `p` of `l`; returns the offset
and the length of that double sequence.  (Greedy `.*` semantics: the
longest middle wins.) -/
def findEndFrom (l : List Char) : Nat → Option (Nat × Nat)
  | 0 => (twoEscLen l).map (fun m => (0, m))
  | p + 1 =>
    match twoEscLen (l.drop (p + 1)) with
    | some m => some (p + 1, m)
    | none => findEndFrom l p

/-- Length of a full `_ANSI_ESCAPE_REGEX` match at the head of the
list, if any. -/
def ansiMatchLen (l : List Char) : Option Nat :=
  match twoEscLen l with
  | none => none
  | some k =>
    let rest := l.drop k
    match rest with
    | [] => none
    | c :: _ =>
      if c = '\x1b' then none
      else
        let lineLen := (rest.takeWhile (fun ch => ch ≠ '\n')).length
        match findEndFrom rest lineLen with
        | none => none
        | some (p, m) => some (k + p + m)

/-- One left-to-right pass of `_ANSI_ESCAPE_REGEX.sub(format_match, s)`:
each match is replaced by itself followed by the current fore-color code
and style code (`format_match`), scanning resumes after the match. -/
def ansiSubGo (fore sty : String) : Nat → List Char → List Char
  | 0, l => l
  | _ + 1, [] => []
  | fuel + 1, c :: rest =>
    match ansiMatchLen (c :: rest) with
    | some n =>
      (c :: rest).take n ++ fore.data ++ sty.data ++
        ansiSubGo fore sty fuel ((c :: rest).drop n)
    | none => c :: ansiSubGo fore sty fuel rest

/-- Model of `_ANSI_ESCAPE_REGEX.sub(format_match, s)` on a string.  The fuel is
the length of the string; every step consumes at least one character,
so it never runs out. -/
def ansiSub (fore sty : String) (s : String) : String :=
  ⟨ansiSubGo fore sty s.data.length s.data⟩

/-- Model of `ColoredString.color_str` from `crayons.py`: build
`FORE_COLORS[color.upper()] + STYLES[style] + <substituted text> +
STYLES["NORMAL"] + FORE_COLORS["RESET"]` and emit it when
`always_color` is set or (`stdout.isatty()` and not `DISABLE_COLOR`);
otherwise emit the plain source text. -/
def color_str (rs : RenderState) (cs : ColoredString) : String :=
  let style := if cs.bold then "BRIGHT" else "NORMAL"
  let fore := (List.lookup (pyUpper cs.color) FORE_COLORS).getD ""
  let sty := (List.lookup style STYLES).getD ""
  let c := fore ++ sty ++ ansiSub fore sty cs.s ++
    ((List.lookup "NORMAL" STYLES).getD "") ++
    ((List.lookup "RESET" FORE_COLORS).getD "")
  if cs.always_color || (rs.isatty && !rs.disable_color) then c else cs.s

/-! ### `crayons.clean` and the `_STRIP` pattern

`_STRIP` is `(\x9B|\x1B\[)[0-?]*[ -\/]*[@-~]`.  The three classes
(parameter bytes `0x30`–`0x3F`, intermediate bytes `0x20`–`0x2F`, final
byte `0x40`–`0x7E`) are pairwise disjoint, so greedy matching without
backtracking computes exactly the Python match. -/

/-- The class `[0-?]`: CSI parameter bytes. -/
def isCSIParam (c : Char) : Bool := 0x30 ≤ c.toNat && c.toNat ≤ 0x3F

/-- The class `[ -\/]`: CSI intermediate bytes. -/
def isCSIInter (c : Char) : Bool := 0x20 ≤ c.toNat && c.toNat ≤ 0x2F

/-- The class `[@-~]`: CSI final bytes. -/
def isCSIFinal (c : Char) : Bool := 0x40 ≤ c.toNat && c.toNat ≤ 0x7E

/-- The `(\x9B|\x1B\[)` alternative at the head of the list: length
consumed and the remainder. -/
def stripIntro (l : List Char) : Option (Nat × List Char) :=
  match l with
  | [] => none
  | c :: rest =>
    if c = '\x9b' then some (1, rest)
    else if c = '\x1b' then
      match rest with
      | b :: rest2 => if b = '[' then some (2, rest2) else none
      | [] => none
    else none

/-- Length of a `_STRIP` match at the head of the list, if any. -/
def stripLen (l : List Char) : Option Nat :=
  match stripIntro l with
  | none => none
  | some (k, rest) =>
    let ps := rest.takeWhile isCSIParam
    let rest2 := rest.drop ps.length
    let is := rest2.takeWhile isCSIInter
    let rest3 := rest2.drop is.length
    match rest3 with
    | c :: _ =>
      if isCSIFinal c then some (k + ps.length + is.length + 1) else none
    | [] => none

/-- One left-to-right pass of `_STRIP.sub("", s)`: every match is
dropped, scanning resumes after the match. -/
def cleanGo : Nat → List Char → List Char
  | 0, l => l
  | _ + 1, [] => []
  | fuel + 1, c :: rest =>
    match stripLen (c :: rest) with
    | some n => cleanGo fuel ((c :: rest).drop n)
    | none => c :: cleanGo fuel rest

/-- Model of `crayons.clean`: remove everything matching `_STRIP`. -/
def clean (s : String) : String := ⟨cleanGo s.data.length s.data⟩

example : clean "\x1b[31mhi\x1b[39m" = "hi" := by decide
example : ansiSub "F" "S" "hi" = "hi" := by decide
example : coloredString_init g0 "RED" "hi" true false =
    Except.ok ⟨"hi", "RED", true, false⟩ := rfl
example : color_str ⟨false, true⟩ ⟨"hi", "RED", true, false⟩ =
    "\x1b[31m\x1b[22mhi\x1b[22m\x1b[39m" := by decide

/-! ### Right-hand operands and comparison operators (`_types.py`)

A right-hand operand of a comparison or concatenation is another
`ColoredString`, a plain `str`, or an arbitrary object that matches the
`runtime_checkable` `StrInterpolable` protocol.  Every Python object has
a `__str__` attribute, so the protocol case is a catch-all; such an
object is modelled by what its `str()` conversion does. -/

/-- The behaviour of `str(value)` for a foreign object: it returns a
string, raises `TypeError` because `__str__` returned a non-string, or
propagates the exception raised by `__str__` itself. -/
inductive StrConv where
  | ok (s : String)
  | nonStr
  | raises (e : PyErr)
deriving Repr, DecidableEq

/-- Run `str(value)` on a foreign object. -/
def strConvRun : StrConv → Except PyErr String
  | .ok s => Except.ok s
  | .nonStr => Except.error PyErr.typeError
  | .raises e => Except.error e

/-- A right-hand operand, matching the three-way `match value` in the
comparison methods of `ColoredStringABC`. -/
inductive Comparand where
  | cstr (b : ColoredString)
  | pstr (t : String)
  | interp (o : StrConv)
deriving Repr, DecidableEq

/-- Model of `ColoredStringABC.__eq__`: two Colorized Values compare by the four
attributes; a plain string and any other object compare against the
unwrapped text (via `str(value)`, which can raise). -/
def cs_eq (a : ColoredString) : Comparand → Except PyErr Bool
  | .cstr b =>
    Except.ok (a.always_color == b.always_color && a.bold == b.bold &&
      a.color == b.color && a.s == b.s)
  | .pstr t => Except.ok (a.s == t)
  | .interp o => do
    let t ← strConvRun o
    pure (a.s == t)

/-- Model of `ColoredStringABC.__gt__`: `str(self.s).__gt__(...)` with the
unwrapped (`.s`) text of the operand for a Colorized Value, the string
itself, or the `str()` conversion of a foreign object. -/
def cs_gt (a : ColoredString) : Comparand → Except PyErr Bool
  | .cstr b => Except.ok (decide (b.s < a.s))
  | .pstr t => Except.ok (decide (t < a.s))
  | .interp o => do
    let t ← strConvRun o
    pure (decide (t < a.s))

/-- Model of `ColoredStringABC.__lt__`. -/
def cs_lt (a : ColoredString) : Comparand → Except PyErr Bool
  | .cstr b => Except.ok (decide (a.s < b.s))
  | .pstr t => Except.ok (decide (a.s < t))
  | .interp o => do
    let t ← strConvRun o
    pure (decide (a.s < t))

/-- Computes `str(value)` for a `ColoredString` operand: its `__str__`, which
is `color_str` — hence the render state parameter. -/
def comparandStr (rs : RenderState) : ColoredString → String :=
  color_str rs

/-- Model of `ColoredStringABC.__ge__`: `self.__gt__(value) or
self.__eq__(str(value))`, with Python evaluation order (the `or` only
evaluates its right side when `__gt__` returned `False`; for a foreign
object `str(value)` is evaluated first because it is the argument of
`__gt__`). -/
def cs_ge (rs : RenderState) (a : ColoredString) :
    Comparand → Except PyErr Bool
  | .cstr b => do
    let gb ← cs_gt a (.cstr b)
    if gb then pure true else cs_eq a (.pstr (comparandStr rs b))
  | .pstr t => do
    let gb ← cs_gt a (.pstr t)
    if gb then pure true else cs_eq a (.pstr t)
  | .interp o => do
    let t ← strConvRun o
    let gb ← cs_gt a (.pstr t)
    if gb then pure true else cs_eq a (.pstr t)

/-- Model of `ColoredStringABC.__le__`: `self.__lt__(value) or
self.__eq__(str(value))`. -/
def cs_le (rs : RenderState) (a : ColoredString) :
    Comparand → Except PyErr Bool
  | .cstr b => do
    let lb ← cs_lt a (.cstr b)
    if lb then pure true else cs_eq a (.pstr (comparandStr rs b))
  | .pstr t => do
    let lb ← cs_lt a (.pstr t)
    if lb then pure true else cs_eq a (.pstr t)
  | .interp o => do
    let t ← strConvRun o
    let lb ← cs_lt a (.pstr t)
    if lb then pure true else cs_eq a (.pstr t)

/-! ### Concatenation and repetition (`crayons.py`) -/

/-- Model of `ColoredString.__add__`: `str(self.color_str) + str(other)` — a
plain string, not a new `ColoredString`. -/
def cs_add (rs : RenderState) (cs : ColoredString) (other : StrConv) :
    Except PyErr String := do
  let t ← strConvRun other
  pure (color_str rs cs ++ t)

/-- Model of `ColoredString.__radd__`: `str(other) + str(self.color_str)`. -/
def cs_radd (rs : RenderState) (cs : ColoredString) (other : StrConv) :
    Except PyErr String := do
  let t ← strConvRun other
  pure (t ++ color_str rs cs)

/-- Computes `"".join(a + str(b) for a, b in product(self.color_str, other))`:
every character of the rendered text, paired in order with every
element of the iterable. -/
def joinProd (t : String) (other : List String) : String :=
  String.join (t.data.map
    (fun a => String.join (other.map (fun b => String.singleton a ++ b))))

/-- Model of `ColoredString.__mul__` for a non-integer iterable multiplier:
the empty string when the rendered text or the iterable is empty
(`not self.color_str or not other`), otherwise the joined Cartesian
product; the result is re-wrapped through `_new`. -/
def cs_mul_iter (rs : RenderState) (g : GState) (cs : ColoredString)
    (other : List String) : Except PyErr ColoredString :=
  cs_new g cs
    (if (color_str rs cs).isEmpty || other.isEmpty then ""
     else joinProd (color_str rs cs) other)

/-! ### Text-transforming operations used by the claims -/

/-- Python whitespace characters stripped by `str.strip()` with no
argument (ASCII fragment). -/
def isPyWhitespace (c : Char) : Bool :=
  c = ' ' || c = '\t' || c = '\n' || c = '\r' || c = '\x0b' || c = '\x0c'

/-- Python `str.strip(chars)` (`None` strips whitespace). -/
def pyStrip (s : String) (chars : Option String) : String :=
  let p := fun c => match chars with
    | none => isPyWhitespace c
    | some cs => cs.data.contains c
  ⟨((s.data.dropWhile p).reverse.dropWhile p).reverse⟩

/-- Model of `ColoredStringABC.strip`: `self._new(str(self.s).strip(chars))`. -/
def cs_strip (g : GState) (cs : ColoredString) (chars : Option String) :
    Except PyErr ColoredString :=
  cs_new g cs (pyStrip cs.s chars)

/-- Model of `ColoredStringABC.split` with a non-`None` separator:
`[self._new(c) for c in str(self.s).split(sep)]`.  (Lean
`String.splitOn` agrees with Python `str.split(sep)` for a non-empty
separator.) -/
def cs_split (g : GState) (cs : ColoredString) (sep : String) :
    Except PyErr (List ColoredString) :=
  (cs.s.splitOn sep).mapM (cs_new g cs)


/-! ### `replace_colors` / `reset_replace_colors` (`crayons.py`) -/

/-- Insertion into a Python dict: overwrite an existing key, else
append. -/
def dictInsert (t : List (String × String)) (k v : String) :
    List (String × String) :=
  if t.any (fun p => p.1 == k) then
    t.map (fun p => if p.1 == k then (k, v) else p)
  else t ++ [(k, v)]

/-- The comprehension with uppercased keys and values of the dict. -/
def upperDict (d : List (String × String)) : List (String × String) :=
  d.foldl (fun acc p => dictInsert acc (pyUpper p.1) (pyUpper p.2)) []

/-- The argument of `replace_colors`: a dict (modelled as entries in
insertion order) or any non-dict value. -/
inductive RCInput where
  | dict (entries : List (String × String))
  | notDict
deriving Repr, DecidableEq

/-- The first value of the dict whose uppercase form is not a
`FORE_COLORS` key, defaulting to the empty string — the
`next((val for val in replace_dict.values() if ...), "")` expression. -/
def firstInvalidValue (d : List (String × String)) : String :=
  ((d.map Prod.snd).find?
    (fun v => (List.lookup (pyUpper v) FORE_COLORS).isNone)).getD ""

/-- Model of `crayons.replace_colors` acting on the current `REPLACE_COLORS`
table.  Result: the exception outcome, the table afterwards (unchanged
when the call raises or the argument is not a dict), and whether the
diagnostic was written to stderr. -/
def replaceColorsFn (old : List (String × String)) (inp : RCInput) :
    Except PyErr Unit × List (String × String) × Bool :=
  match inp with
  | .notDict => (Except.ok (), old, true)
  | .dict d =>
    let invalid := firstInvalidValue d
    if invalid ≠ "" then (Except.error (PyErr.keyError invalid), old, false)
    else (Except.ok (), upperDict d, false)

/-- Model of `crayons.reset_replace_colors`: the table becomes empty. -/
def resetReplaceColorsFn : List (String × String) := []

/-! ### `str.format` and the `format` method (`_types.py`)

`ColoredStringABC.format` reads `self._new(str(self.s).format(args,
kwargs))`: the tuple of positional arguments and the dict of keyword
arguments are passed as *two positional arguments* to `str.format`
instead of being unpacked.  To express what that does we model the
fragment of `str.format` exercised here: literal text, `{{`/`}}`
escapes, and `{n}`/`{}` replacement fields without conversion or format
spec, over arguments that are strings, tuples of strings or dicts of
strings (rendered by `str()` as Python renders them). -/

/-- A positional argument to `str.format` as it occurs here. -/
inductive FmtArg where
  | vstr (s : String)
  | vtuple (elems : List String)
  | vdict (entries : List (String × String))
deriving Repr, DecidableEq

/-- A single-quote character (written via its code point). -/
def squote : String := String.singleton (Char.ofNat 39)

/-- Python `repr` of a string without quotes or escapes in it. -/
def pyReprStr (s : String) : String := squote ++ s ++ squote

/-- The opening brace character. -/
def lbrace : Char := Char.ofNat 123

/-- The closing brace character. -/
def rbrace : Char := Char.ofNat 125

/-- Python `str()`/`format(x, "")` of a format argument: a string is
itself; a tuple or dict is rendered by its `repr`. -/
def fmtArgStr : FmtArg → String
  | .vstr s => s
  | .vtuple es =>
    "(" ++ String.intercalate ", " (es.map pyReprStr) ++
      (if es.length == 1 then "," else "") ++ ")"
  | .vdict es =>
    String.singleton lbrace ++
      String.intercalate ", "
        (es.map (fun p => pyReprStr p.1 ++ ": " ++ pyReprStr p.2)) ++
      String.singleton rbrace

/-- Digits to a natural number. -/
def digitsToNat (ds : List Char) : Nat :=
  ds.foldl (fun n c => n * 10 + (c.toNat - 48)) 0

/-- The scanning core of `str.format` on the modelled fragment.  `auto`
is the auto-numbering counter for empty fields; `none` signals an input
outside the fragment (or an index error, which Python raises). -/
def pyFormatGo (args : List FmtArg) : Nat → Nat → List Char →
    Option (List Char)
  | _, _, [] => some []
  | 0, _, l => some l
  | fuel + 1, auto, c :: rest =>
    if c = lbrace then
      match rest with
      | [] => none
      | c2 :: rest2 =>
        if c2 = lbrace then
          (pyFormatGo args fuel auto rest2).map (lbrace :: ·)
        else
          let ds := rest.takeWhile isDigitByte
          match rest.drop ds.length with
          | c3 :: rest3 =>
            if c3 = rbrace then
              let idx := if ds.isEmpty then auto else digitsToNat ds
              let auto2 := if ds.isEmpty then auto + 1 else auto
              match args.get? idx with
              | some a =>
                (pyFormatGo args fuel auto2 rest3).map
                  ((fmtArgStr a).data ++ ·)
              | none => none
            else none
          | [] => none
    else if c = rbrace then
      match rest with
      | c2 :: rest2 =>
        if c2 = rbrace then (pyFormatGo args fuel auto rest2).map (rbrace :: ·)
        else none
      | [] => none
    else (pyFormatGo args fuel auto rest).map (c :: ·)

/-- Python `template.format(*args)` on the modelled fragment. -/
def pyFormat (template : String) (args : List FmtArg) : Option String :=
  (pyFormatGo args template.data.length 0 template.data).map (⟨·⟩)

/-- Model of `ColoredStringABC.format` as written in the source:
`self._new(str(self.s).format(args, kwargs))`, i.e. `str.format`
receives the tuple of positional arguments and the dict of keyword
arguments as its two positional arguments. -/
def cs_format (g : GState) (cs : ColoredString) (args : List String)
    (kwargs : List (String × String)) :
    Option (Except PyErr ColoredString) :=
  (pyFormat cs.s [FmtArg.vtuple args, FmtArg.vdict kwargs]).map (cs_new g cs)


/-! ## Claims -/

/-- C2 — Render gating and exact wrap shape: when `always_color` is set
the rendered string starts with (hence contains) the fore-color escape
sequence whatever the render state; when `always_color` is unset and
`DISABLE_COLOR` holds, rendering is exactly the plain underlying text;
and `red("hi")` with color forced on renders exactly to
`"\x1b[31m\x1b[22mhi\x1b[22m\x1b[39m"`. -/
theorem C2_render_gating :
    (∀ (rs : RenderState) (cs : ColoredString), cs.always_color = true →
      ∃ t, (color_str rs cs).data =
        ((List.lookup (pyUpper cs.color) FORE_COLORS).getD "").data ++ t)
    ∧ (∀ (rs : RenderState) (cs : ColoredString), cs.always_color = false →
        rs.disable_color = true → color_str rs cs = cs.s)
    ∧ (∀ rs : RenderState,
        red g0 "hi" true false = Except.ok ⟨"hi", "RED", true, false⟩ ∧
        color_str rs ⟨"hi", "RED", true, false⟩ =
          "\x1b[31m\x1b[22mhi\x1b[22m\x1b[39m") := by
  refine ⟨?_, ?_, ?_⟩
  · intro rs cs h
    refine ⟨((List.lookup (if cs.bold then "BRIGHT" else "NORMAL")
        STYLES).getD "" ++
      ansiSub ((List.lookup (pyUpper cs.color) FORE_COLORS).getD "")
        ((List.lookup (if cs.bold then "BRIGHT" else "NORMAL")
          STYLES).getD "") cs.s ++
      (List.lookup "NORMAL" STYLES).getD "" ++
      (List.lookup "RESET" FORE_COLORS).getD "").data, ?_⟩
    simp [color_str, h, String.data_append, List.append_assoc]
  · intro rs cs h hd
    simp [color_str, h, hd]
  · intro rs
    refine ⟨rfl, ?_⟩
    simp only [color_str]
    norm_num
    decide

/-- Witness for C2 at concrete inputs. -/
theorem C2_render_gating_witness :
    (∃ t, (color_str ⟨true, false⟩ ⟨"hi", "RED", true, false⟩).data =
      ((List.lookup (pyUpper "RED") FORE_COLORS).getD "").data ++ t)
    ∧ color_str ⟨false, true⟩ ⟨"hi", "RED", false, false⟩ = "hi" :=
  ⟨C2_render_gating.1 ⟨true, false⟩ ⟨"hi", "RED", true, false⟩ rfl,
   C2_render_gating.2.1 ⟨false, true⟩ ⟨"hi", "RED", false, false⟩ rfl rfl⟩

/-- C4 — Ordering consistency: for every pair of Colorized Values,
`a <= b` is exactly `(a < b) or (a == str(b))`, and `a >= b` is exactly
`(a > b) or (a == str(b))`; no comparison raises. -/
theorem C4_ordering_consistency :
    ∀ (rs : RenderState) (a b : ColoredString),
      ∃ l gb e : Bool,
        cs_lt a (.cstr b) = Except.ok l ∧
        cs_gt a (.cstr b) = Except.ok gb ∧
        cs_eq a (.pstr (comparandStr rs b)) = Except.ok e ∧
        cs_le rs a (.cstr b) = Except.ok (l || e) ∧
        cs_ge rs a (.cstr b) = Except.ok (gb || e) := by
  intro rs a b
  refine ⟨decide (a.s < b.s), decide (b.s < a.s),
    a.s == comparandStr rs b, rfl, rfl, rfl, ?_, ?_⟩
  · by_cases h : a.s < b.s <;>
      simp [cs_le, cs_lt, cs_eq, h, Except.bind, Bind.bind, pure, Except.pure]
  · by_cases h : b.s < a.s <;>
      simp [cs_ge, cs_gt, cs_eq, h, Except.bind, Bind.bind, pure, Except.pure]

/-- C6 — Replacement table consulted at construction: the stored color
is the override-table entry for the requested color when present,
otherwise the requested color; after `replaceColors({"magenta":
"blue"})`, `magenta("z")` stores `BLUE`, and after
`resetReplaceColors()` it stores `MAGENTA` again. -/
theorem C6_replacement_consulted :
    (∀ (g : GState) (color s : String) (a b : Bool) (cs : ColoredString),
      coloredString_init g color s a b = Except.ok cs →
      cs.color = (List.lookup color g.replace_colors).getD color)
    ∧ replaceColorsFn [] (.dict [("magenta", "blue")]) =
        (Except.ok (), [("MAGENTA", "BLUE")], false)
    ∧ magenta ⟨[("MAGENTA", "BLUE")], false⟩ "z" =
        Except.ok ⟨"z", "BLUE", false, false⟩
    ∧ magenta ⟨resetReplaceColorsFn, false⟩ "z" =
        Except.ok ⟨"z", "MAGENTA", false, false⟩ := by
  refine ⟨?_, rfl, rfl, rfl⟩
  intro g color s a b cs h
  unfold coloredString_init at h
  split at h
  · cases h
  · cases h
    rfl

/-- Witness for C6 at a concrete input. -/
theorem C6_replacement_consulted_witness :
    (⟨"z", "BLUE", false, false⟩ : ColoredString).color =
      (List.lookup "MAGENTA"
        (⟨[("MAGENTA", "BLUE")], false⟩ : GState).replace_colors).getD
        "MAGENTA" :=
  C6_replacement_consulted.1 ⟨[("MAGENTA", "BLUE")], false⟩ "MAGENTA" "z"
    false false ⟨"z", "BLUE", false, false⟩ C6_replacement_consulted.2.2.1


/-- C8 — Repetition by iterable: `v * it` for an iterable multiplier is
a new Colorized Value whose content is the in-order join of `a + str(b)`
over the Cartesian product of the rendered-text characters with the
iterable elements, with the constructed-empty value for an empty
rendered text or empty iterable; concretely, `red("AB") * ["X","Y"]`
(color inactive) renders to `"AXAYBXBY"`. -/
theorem C8_mul_iterable :
    (∀ (rs : RenderState) (g : GState) (cs : ColoredString)
        (other : List String),
      (List.lookup (pyUpper cs.color) FORE_COLORS).isSome = true →
      ∃ d, cs_mul_iter rs g cs other = Except.ok d ∧
        d.s = (if (color_str rs cs).isEmpty || other.isEmpty then ""
               else joinProd (color_str rs cs) other))
    ∧ cs_mul_iter ⟨false, true⟩ g0 ⟨"AB", "RED", false, false⟩ ["X", "Y"] =
        Except.ok ⟨"AXAYBXBY", "RED", false, false⟩
    ∧ color_str ⟨false, true⟩ ⟨"AXAYBXBY", "RED", false, false⟩ =
        "AXAYBXBY" := by
  refine ⟨?_, rfl, rfl⟩
  intro rs g cs other h
  obtain ⟨v, hv⟩ := Option.isSome_iff_exists.mp h
  refine ⟨⟨if (color_str rs cs).isEmpty || other.isEmpty then ""
      else joinProd (color_str rs cs) other,
    (List.lookup cs.color g.replace_colors).getD cs.color,
    if g.clint_force_color then true else cs.always_color,
    cs.bold⟩, ?_, rfl⟩
  simp [cs_mul_iter, cs_new, coloredString_init, hv]

/-- Witness for C8 at a concrete input. -/
theorem C8_mul_iterable_witness :
    ∃ d, cs_mul_iter ⟨false, true⟩ g0 ⟨"AB", "RED", false, false⟩
        ["X", "Y"] = Except.ok d ∧
      d.s = (if (color_str ⟨false, true⟩
              ⟨"AB", "RED", false, false⟩).isEmpty ||
            (["X", "Y"] : List String).isEmpty then ""
          else joinProd (color_str ⟨false, true⟩
            ⟨"AB", "RED", false, false⟩) ["X", "Y"]) :=
  C8_mul_iterable.1 ⟨false, true⟩ g0 ⟨"AB", "RED", false, false⟩
    ["X", "Y"] (by decide)

/-- C10 — Concatenation leaves the proxy: `v + o` is the plain string
`color_str(v) + str(o)` and `o + v` is `str(o) + color_str(v)` (with
`str(o)` failures propagating); the result is a plain string, not a new
Colorized Value.  Concretely, with color active the escape sequences
appear in the sum. -/
theorem C10_concatenation :
    (∀ (rs : RenderState) (cs : ColoredString) (o : StrConv),
      cs_add rs cs o =
        (strConvRun o).map (fun t => color_str rs cs ++ t) ∧
      cs_radd rs cs o =
        (strConvRun o).map (fun t => t ++ color_str rs cs))
    ∧ cs_add ⟨true, false⟩ ⟨"hi", "RED", true, false⟩ (.ok " world") =
        Except.ok "\x1b[31m\x1b[22mhi\x1b[22m\x1b[39m world" := by
  constructor
  · intro rs cs o
    cases o <;>
      simp [cs_add, cs_radd, strConvRun, Except.map, Except.bind,
        Bind.bind, pure, Except.pure]
  · rfl


/-- The format template consisting of a single replacement field for
positional argument 0. -/
def fmt01 : String := "\x7b0\x7d"

/-- C1 — Content fidelity of the delegation surface, evaluated at the
failing input: plain `"{0}".format("a")` yields `"a"`, but the `format`
method of a Colorized Value over `"{0}"` passes the tuple of positional
arguments and the dict of keyword arguments as two positional
arguments, so the underlying text of the result is the `repr` of the
one-element tuple, not `"a"`. -/
theorem C1_format_fidelity_bug :
    pyFormat fmt01 [FmtArg.vstr "a"] = some "a" ∧
    cs_format g0 ⟨fmt01, "RED", false, false⟩ ["a"] [] =
      some (Except.ok ⟨fmtArgStr (FmtArg.vtuple ["a"]), "RED",
        false, false⟩) ∧
    fmtArgStr (FmtArg.vtuple ["a"]) ≠ "a" :=
  ⟨rfl, rfl, by decide⟩

/-- Counterexample to C3 as stated: a Colorized Value constructed with
color `RED` under an empty replacement table, transformed by `strip`
after the table maps `RED` to `BLUE`, returns a value whose stored
color is `BLUE`, not the original `RED`. -/
theorem C3_counterexample :
    coloredString_init g0 "RED" "x" false false =
      Except.ok ⟨"x", "RED", false, false⟩ ∧
    cs_strip ⟨[("RED", "BLUE")], false⟩ ⟨"x", "RED", false, false⟩ none =
      Except.ok ⟨"x", "BLUE", false, false⟩ ∧
    ("BLUE" : String) ≠ "RED" :=
  ⟨rfl, rfl, by decide⟩

/-- C3 (amended) — Round-trip styling preservation holds whenever, at
operation time, the replacement table does not remap the stored
color of the value (no entry, or an entry mapping it to itself) and the
`CLINT_FORCE_COLOR` signal is absent (or `always_color` is already
set): `_new`, and with it every text-transforming operation (`strip`
and `split` shown), returns values carrying the same `color`,
`always_color` and `bold`. -/
theorem C3_styling_preserved_amended :
    ∀ (g : GState) (cs : ColoredString),
      (List.lookup (pyUpper cs.color) FORE_COLORS).isSome = true →
      (List.lookup cs.color g.replace_colors = none ∨
        List.lookup cs.color g.replace_colors = some cs.color) →
      (g.clint_force_color = false ∨ cs.always_color = true) →
      (∀ s2 : String, cs_new g cs s2 =
        Except.ok ⟨s2, cs.color, cs.always_color, cs.bold⟩) ∧
      (∀ chars, cs_strip g cs chars =
        Except.ok ⟨pyStrip cs.s chars, cs.color, cs.always_color,
          cs.bold⟩) ∧
      (∀ sep : String, cs_split g cs sep =
        Except.ok ((cs.s.splitOn sep).map
          (fun c => ⟨c, cs.color, cs.always_color, cs.bold⟩))) := by
  intro g cs hvalid hrep hforce
  obtain ⟨v, hv⟩ := Option.isSome_iff_exists.mp hvalid
  have hnew : ∀ s2 : String, cs_new g cs s2 =
      Except.ok ⟨s2, cs.color, cs.always_color, cs.bold⟩ := by
    intro s2
    simp only [cs_new, coloredString_init, hv, Option.isNone_some,
      Bool.false_eq_true, if_false]
    rcases hrep with hr | hr <;> rcases hforce with hf | hf <;>
      simp [hr, hf]
  refine ⟨hnew, fun chars => hnew _, ?_⟩
  intro sep
  simp only [cs_split]
  induction cs.s.splitOn sep with
  | nil => rfl
  | cons hd tl ih =>
    rw [List.mapM_cons, hnew, ih]
    rfl

/-- Witness for the amended C3 at a concrete input. -/
theorem C3_styling_preserved_amended_witness :
    cs_strip g0 ⟨" x ", "RED", false, true⟩ none =
      Except.ok ⟨pyStrip " x " none, "RED", false, true⟩ :=
  (C3_styling_preserved_amended g0 ⟨" x ", "RED", false, true⟩
    (by decide) (Or.inl (by decide)) (Or.inl rfl)).2.1 none

/-- Counterexample to C9 as stated: equality against a right-hand
operand whose text conversion raises does not return false — it
propagates the exception. -/
theorem C9_counterexample :
    cs_eq ⟨"test", "RED", false, false⟩
        (.interp (.raises PyErr.valueError)) =
      Except.error PyErr.valueError ∧
    (Except.error PyErr.valueError : Except PyErr Bool) ≠
      Except.ok false := by
  refine ⟨rfl, ?_⟩
  intro h
  cases h

/-- C9 (amended) — Non-text comparand handling: against a right-hand
operand whose text conversion yields a non-text result, the ordering
comparisons `<`, `>`, `<=`, `>=` *and* equality all fail with a type
error; against an operand whose conversion raises, all five propagate
that same exception (equality does not return false in either case). -/
theorem C9_nontext_comparand_amended :
    ∀ (rs : RenderState) (a : ColoredString) (e : PyErr),
      cs_lt a (.interp .nonStr) = Except.error PyErr.typeError ∧
      cs_gt a (.interp .nonStr) = Except.error PyErr.typeError ∧
      cs_le rs a (.interp .nonStr) = Except.error PyErr.typeError ∧
      cs_ge rs a (.interp .nonStr) = Except.error PyErr.typeError ∧
      cs_eq a (.interp .nonStr) = Except.error PyErr.typeError ∧
      cs_lt a (.interp (.raises e)) = Except.error e ∧
      cs_gt a (.interp (.raises e)) = Except.error e ∧
      cs_le rs a (.interp (.raises e)) = Except.error e ∧
      cs_ge rs a (.interp (.raises e)) = Except.error e ∧
      cs_eq a (.interp (.raises e)) = Except.error e := by
  intro rs a e
  exact ⟨rfl, rfl, rfl, rfl, rfl, rfl, rfl, rfl, rfl, rfl⟩


/-- Returns `true` iff the string contains no CSI-introducing byte (`\x1b` or
`\x9b`). -/
def hasNoCSIIntro (s : String) : Bool :=
  s.data.all (fun c => c != '\x1b' && c != '\x9b')

/-- The pattern `_STRIP` cannot match at a character that is not a CSI introducer. -/
theorem stripIntro_none_of {c : Char} (rest : List Char)
    (h1 : c ≠ '\x9b') (h2 : c ≠ '\x1b') : stripIntro (c :: rest) = none := by
  simp [stripIntro, h1, h2]

/-- The `clean` scan is the identity on character lists without CSI
introducers. -/
theorem cleanGo_of_no_intro : ∀ (fuel : Nat) (l : List Char),
    l.all (fun c => c != '\x1b' && c != '\x9b') = true →
    cleanGo fuel l = l := by
  intro fuel
  induction fuel with
  | zero => intro l _; rfl
  | succ n ih =>
    intro l h
    cases l with
    | nil => rfl
    | cons c rest =>
      simp only [List.all_cons, Bool.and_eq_true, bne_iff_ne] at h
      simp [cleanGo, stripLen, stripIntro_none_of rest h.1.2 h.1.1,
        ih rest h.2]

/-- Counterexample to C5 as stated: on `"\x1b\x1b[31m[31m"` a single
`clean` removes the inner CSI sequence and thereby splices the
surrounding bytes into a new one, so `clean` is not idempotent (and its
result still contains an escape introducing a control sequence). -/
theorem C5_counterexample :
    clean (clean "\x1b\x1b[31m[31m") ≠ clean "\x1b\x1b[31m[31m" := by
  decide

/-- C5 (amended) — `clean` removes, in one left-to-right pass, every
non-overlapping CSI sequence of its input; it is the identity on text
without CSI-introducing bytes, and `clean(clean(s)) == clean(s)` holds
whenever the single pass leaves no CSI-introducing byte behind (a
removal can splice adjacent bytes into a new escape sequence, so this
side condition is not vacuous). -/
theorem C5_clean_amended :
    (∀ s : String, hasNoCSIIntro s = true → clean s = s) ∧
    (∀ s : String, hasNoCSIIntro (clean s) = true →
      clean (clean s) = clean s) := by
  have base : ∀ s : String, hasNoCSIIntro s = true → clean s = s := by
    intro s h
    cases s with
    | mk l =>
      show String.mk (cleanGo l.length l) = String.mk l
      rw [cleanGo_of_no_intro l.length l h]
  exact ⟨base, fun s h => base (clean s) h⟩

/-- Witness for the amended C5 at concrete inputs. -/
theorem C5_clean_amended_witness :
    clean "hi" = "hi" ∧
    clean (clean "\x1b[31mhi\x1b[39m") = clean "\x1b[31mhi\x1b[39m" :=
  ⟨C5_clean_amended.1 "hi" (by decide),
   C5_clean_amended.2 "\x1b[31mhi\x1b[39m" (by decide)⟩

/-- Counterexample to C7 as stated: the empty string is not a known
color name, yet a mapping whose (first) invalid value is `""` does not
raise — the sentinel default of the validity scan collides with it —
and the table is replaced with the invalid mapping. -/
theorem C7_counterexample :
    (List.lookup (pyUpper "") FORE_COLORS).isNone = true ∧
    replaceColorsFn [("A", "B")] (.dict [("RED", "")]) =
      (Except.ok (), [("RED", "")], false) :=
  ⟨rfl, rfl⟩

/-- C7 (amended) — `replaceColors` error behaviour: when the first
invalid value of the mapping (in iteration order) is non-empty, the
call fails with an unknown-color error naming it and the table is
unchanged; when every value is valid — or the first invalid value is
the empty string, which the sentinel default masks — the table is
atomically replaced with the uppercased mapping; a non-mapping argument
never raises, changes nothing, and only writes a diagnostic. -/
theorem C7_replace_colors_amended :
    (∀ (old d : List (String × String)),
      (firstInvalidValue d ≠ "" →
        replaceColorsFn old (.dict d) =
          (Except.error (PyErr.keyError (firstInvalidValue d)), old,
            false)) ∧
      (firstInvalidValue d = "" →
        replaceColorsFn old (.dict d) = (Except.ok (), upperDict d, false)))
    ∧ (∀ old : List (String × String),
        replaceColorsFn old .notDict = (Except.ok (), old, true)) := by
  refine ⟨?_, fun old => rfl⟩
  intro old d
  constructor <;> intro h <;> simp [replaceColorsFn, h]

/-- Witness for the amended C7 at concrete inputs. -/
theorem C7_replace_colors_amended_witness :
    replaceColorsFn [] (.dict [("red", "nope")]) =
      (Except.error (PyErr.keyError (firstInvalidValue [("red", "nope")])),
        [], false) ∧
    replaceColorsFn [] (.dict [("red", "blue")]) =
      (Except.ok (), upperDict [("red", "blue")], false) :=
  ⟨(C7_replace_colors_amended.1 [] [("red", "nope")]).1 (by decide),
   (C7_replace_colors_amended.1 [] [("red", "blue")]).2 (by decide)⟩

